import Mathlib

/-!
Shallow embedding of `server/server.go` from `status-go`: the loopback HTTPS
media server (certificate provider, the three resource handlers, and the
listener/lifecycle controller), together with theorems checking the
specification's claims against the code.

External collaborators (the Go crypto/TLS primitives, the SQL row store, the
identicon generator and the MIME sniffer) are modelled as parameters: opaque
outcomes supplied by the environment, exactly at the call sites where the Go
code consumes them.
-/

namespace StatusServer

/-- Result of `tls.X509KeyPair`: the parsed certificate/key pair.  The parsed
material is opaque to this file; only its identity matters. -/
structure TLSCertificate where
  id : Nat
deriving DecidableEq, Repr

/-- The two package-level globals of `server.go`:
`var globalCertificate *tls.Certificate` and `var globalPem string`. -/
structure CertState where
  globalCertificate : Option TLSCertificate
  globalPem : String
deriving DecidableEq, Repr

/-- Initial process state: `globalCertificate = nil`, `globalPem = ""`. -/
def CertState.initial : CertState :=
  { globalCertificate := none, globalPem := "" }

/-- Outcomes of the cryptographic collaborators called by `generateTLSCert`:
`ecdsa.GenerateKey`, `GenerateX509Cert`, `GenerateX509PEMs`,
`tls.X509KeyPair`.  Keys and X.509 certificates are opaque (`Nat` handles);
PEM encodings are byte strings. -/
structure CertEnv where
  genKey : Except String Nat
  genX509 : Nat → Nat → Except String Nat
  genPEMs : Nat → Nat → Except String (String × String)
  keyPair : String → String → Except String TLSCertificate

/-- `generateTLSCert` from `server.go`: if a certificate already exists it
returns immediately; otherwise it generates a key, a certificate valid for
365 days (time is counted in hours: `notAfter = now + 365*24`), PEM-encodes
both, parses the key pair, and only on full success stores the result in
the globals. -/
def generateTLSCert (env : CertEnv) (now : Nat) (st : CertState) :
    Except String Unit × CertState :=
  match st.globalCertificate with
  | some _ => (Except.ok (), st)
  | none =>
    match env.genKey with
    | Except.error e => (Except.error e, st)
    | Except.ok priv =>
      let notBefore := now
      let notAfter := now + 365 * 24
      match env.genX509 notBefore notAfter with
      | Except.error e => (Except.error e, st)
      | Except.ok cert =>
        match env.genPEMs cert priv with
        | Except.error e => (Except.error e, st)
        | Except.ok (certPem, _keyPem) =>
          match env.keyPair certPem _keyPem with
          | Except.error e => (Except.error e, st)
          | Except.ok finalCert =>
            (Except.ok (),
              { globalCertificate := some finalCert, globalPem := certPem })

/-- `PublicTLSCert` from `server.go`: ensures the certificate exists, then
returns the public certificate PEM. -/
def PublicTLSCert (env : CertEnv) (now : Nat) (st : CertState) :
    Except String String × CertState :=
  match generateTLSCert env now st with
  | (Except.error e, st1) => (Except.error e, st1)
  | (Except.ok _, st1) => (Except.ok st1.globalPem, st1)

/-! ## Server instance and lifecycle -/

/-- Phase of the (single) background listen-loop task spawned by `Start`:
no task pending, a task about to attempt `tls.Listen`, or a task blocked
inside `Serve`. -/
inductive Phase where
  | idle
  | pendingBind
  | serving
deriving DecidableEq, Repr

/-- The three fixed paths registered by `Start` on its fresh `ServeMux`. -/
def routes : List String :=
  ["/messages/images", "/messages/audio", "/messages/identicons"]

/-- The `Server` struct of `server.go`.  `server` is the `*http.Server`
handle (`none` = `nil`), carrying the mux's registered paths.  `startCalls`
and `shutdownCalls` are instrumentation counting entries into `Start()` and
into `server.Shutdown` — they let theorems say "Start was (not) invoked". -/
structure Server where
  Port : Nat
  run : Bool
  server : Option (List String)
  cert : Option TLSCertificate
  phase : Phase
  startCalls : Nat
  shutdownCalls : Nat
deriving DecidableEq, Repr

/-- `NewServer` from `server.go`: ensures the certificate, propagating any
generation error to the caller; on success returns a fresh server with
`Port: 0` holding the global certificate. -/
def NewServer (env : CertEnv) (now : Nat) (st : CertState) :
    Except String Server × CertState :=
  match generateTLSCert env now st with
  | (Except.error e, st1) => (Except.error e, st1)
  | (Except.ok _, st1) =>
    (Except.ok
      { Port := 0, run := false, server := none,
        cert := st1.globalCertificate, phase := Phase.idle,
        startCalls := 0, shutdownCalls := 0 }, st1)

/-- `Server.Start` from `server.go`: builds a fresh mux with the three
handler routes, installs a fresh `http.Server` handle, spawns the listen
loop (`go s.listenAndServe()`, recorded as `phase := pendingBind`), and
returns `nil`. -/
def Server.Start (s : Server) : Server × Option String :=
  ({ s with server := some routes, phase := Phase.pendingBind,
            startCalls := s.startCalls + 1 }, none)

/-- `Server.Stop` from `server.go`: if a server handle exists, gracefully
shut it down (`Shutdown` makes a blocked `Serve` return `ErrServerClosed`,
which the listen loop observes as the `serveClosed` event below).  `Stop`
itself mutates no field of the server. -/
def Server.Stop (s : Server) : Server :=
  if s.server.isSome then { s with shutdownCalls := s.shutdownCalls + 1 } else s

/-- `Server.ToForeground` from `server.go`: start again only when not
running and a server handle exists. -/
def Server.ToForeground (s : Server) : Server :=
  if !s.run && s.server.isSome then (Server.Start s).1 else s

/-- `Server.ToBackground` from `server.go`: stop only when running. -/
def Server.ToBackground (s : Server) : Server :=
  if s.run then Server.Stop s else s

/-- The address `listenAndServe` asks `tls.Listen` to bind:
`fmt.Sprintf("localhost:%d", s.Port)`. -/
def Server.bindAddr (s : Server) : String :=
  "localhost:" ++ toString s.Port

/-- Events driving the lifecycle: the external entry points, plus the
observable outcomes of the listen loop's environment-dependent calls.
`bindOk eph` is a successful `tls.Listen` (when port 0 was requested the
OS picked ephemeral port `eph`); `bindFail` a failed one; `serveClosed` is
`Serve` returning `http.ErrServerClosed`; `serveFail` is `Serve` returning
any other error. -/
inductive Ev where
  | start
  | bindOk (eph : Nat)
  | bindFail
  | serveClosed
  | serveFail
  | stop
  | toForeground
  | toBackground
deriving DecidableEq, Repr

/-- One step of the lifecycle controller, per `listenAndServe`, `Start`,
`Stop`, `ToForeground`, `ToBackground` in `server.go`.  The listen-loop
events are enabled only in the matching phase.  On `bindOk` the bound port
is resolved from the listener (`listener.Addr().(*net.TCPAddr).Port`): the
requested port when non-zero, the OS-chosen one when zero was requested.
On `bindFail` the loop resets `Port` to 0 and calls `Start()` again.  On
`serveFail` it calls `Start()` again without touching `run`.  Only
`serveClosed` sets `run := false`. -/
def step (s : Server) : Ev → Server
  | Ev.start => (Server.Start s).1
  | Ev.bindOk eph =>
    if s.phase = Phase.pendingBind then
      { s with Port := if s.Port = 0 then eph else s.Port,
               run := true, phase := Phase.serving }
    else s
  | Ev.bindFail =>
    if s.phase = Phase.pendingBind then
      (Server.Start { s with Port := 0, phase := Phase.idle }).1
    else s
  | Ev.serveClosed =>
    if s.phase = Phase.serving then
      { s with run := false, phase := Phase.idle }
    else s
  | Ev.serveFail =>
    if s.phase = Phase.serving then
      (Server.Start { s with phase := Phase.idle }).1
    else s
  | Ev.stop => Server.Stop s
  | Ev.toForeground => Server.ToForeground s
  | Ev.toBackground => Server.ToBackground s

/-- Run a sequence of lifecycle events. -/
def steps (s : Server) (evs : List Ev) : Server :=
  evs.foldl step s

/-! ## HTTP requests, response writers, and the three resource handlers -/

/-- An inbound request, reduced to what the handlers read:
`r.URL.Query()`, a map from parameter name to its list of values
(`none` = key absent, mirroring the `ok` flag of the Go map access). -/
structure Request where
  query : String → Option (List String)

/-- A point in time, reduced to what `server.go` uses of it: the year
(`time.Time.AddDate(60, 0, 0)` advances the year by 60). -/
structure Time where
  year : Nat
deriving DecidableEq, Repr

/-- `time.Time.AddDate(y, 0, 0)`. -/
def Time.AddDate (t : Time) (y : Nat) : Time :=
  { year := t.year + y }

/-- `t.Format(http.TimeFormat)`: the HTTP-date rendering of `t`.  Only the
year is modelled, so only the year is rendered. -/
def Time.httpFormat (t : Time) : String :=
  toString t.year ++ " GMT"

/-- State accumulated in an `http.ResponseWriter`: headers set via
`w.Header().Set` and the payloads of the `w.Write` calls, in order. -/
structure ResponseWriter where
  headers : List (String × String)
  body : List (List Nat)
deriving DecidableEq, Repr

/-- The writer before the handler runs: nothing set, nothing written. -/
def emptyRW : ResponseWriter :=
  { headers := [], body := [] }

/-- `w.Header().Set(k, v)`: replace the value of `k`, or append it. -/
def headerSet : List (String × String) → String → String → List (String × String)
  | [], k, v => [(k, v)]
  | (k1, v1) :: rest, k, v =>
    if k1 = k then (k, v) :: rest else (k1, v1) :: headerSet rest k v

/-- Look a header up by name (for stating theorems about the result). -/
def headerGet : List (String × String) → String → Option String
  | [], _ => none
  | (k1, v1) :: rest, k => if k1 = k then some v1 else headerGet rest k

/-- `w.Header().Set(k, v)` on a writer. -/
def ResponseWriter.set (w : ResponseWriter) (k v : String) : ResponseWriter :=
  { w with headers := headerSet w.headers k v }

/-- `w.Write(bytes)` (write errors are only logged by the handlers, so the
model records the payload unconditionally). -/
def ResponseWriter.write (w : ResponseWriter) (bytes : List Nat) : ResponseWriter :=
  { w with body := w.body ++ [bytes] }

/-- `identiconHandler.ServeHTTP` from `server.go`.  The collaborator
`generate` is `identicon.Generate(pk)`, returning the produced bytes and a
possible error; on error the handler only logs and continues: it still sets
`Content-Type: image/png`, the far-future `Cache-Control`, an `Expires`
60 years out, and writes whatever bytes were produced. -/
def identiconHandler.ServeHTTP (generate : String → List Nat × Option String)
    (now : Time) (r : Request) (w : ResponseWriter) : ResponseWriter :=
  match r.query "publicKey" with
  | none => w
  | some [] => w
  | some (pk :: _) =>
    let gi := generate pk
    let w := w.set "Content-Type" "image/png"
    let w := w.set "Cache-Control" "max-age:290304000, public"
    let w := w.set "Expires" ((now.AddDate 60).httpFormat)
    w.write gi.1

/-- `imageHandler.ServeHTTP` from `server.go`.  `db mid` is
`QueryRow("SELECT image_payload ...").Scan`: `none` when the scan errors
(e.g. no such row), `some bytes` otherwise.  `detect` is
`images.ImageMime`, returning a MIME string and a possible error; on error
the handler only logs and continues with the returned string. -/
def imageHandler.ServeHTTP (detect : List Nat → String × Option String)
    (db : String → Option (List Nat)) (r : Request)
    (w : ResponseWriter) : ResponseWriter :=
  match r.query "messageId" with
  | none => w
  | some [] => w
  | some (mid :: _) =>
    match db mid with
    | none => w
    | some image =>
      if image.length = 0 then w
      else
        let mi := detect image
        let w := w.set "Content-Type" mi.1
        let w := w.set "Cache-Control" "no-store"
        w.write image

/-- `audioHandler.ServeHTTP` from `server.go`: same shape as the image
handler, but the content type is the fixed `audio/aac`, never sniffed. -/
def audioHandler.ServeHTTP (db : String → Option (List Nat)) (r : Request)
    (w : ResponseWriter) : ResponseWriter :=
  match r.query "messageId" with
  | none => w
  | some [] => w
  | some (mid :: _) =>
    match db mid with
    | none => w
    | some audio =>
      if audio.length = 0 then w
      else
        let w := w.set "Content-Type" "audio/aac"
        let w := w.set "Cache-Control" "no-store"
        w.write audio

/-! ## Concrete inputs used by witness theorems -/

/-- A crypto environment in which every collaborator succeeds. -/
def wCertEnvOk : CertEnv :=
  { genKey := Except.ok 1,
    genX509 := fun _ _ => Except.ok 2,
    genPEMs := fun _ _ => Except.ok ("CERTPEM", "KEYPEM"),
    keyPair := fun _ _ => Except.ok ⟨7⟩ }

/-- A crypto environment in which key generation fails. -/
def wCertEnvBad : CertEnv :=
  { genKey := Except.error "entropy exhausted",
    genX509 := fun _ _ => Except.ok 2,
    genPEMs := fun _ _ => Except.ok ("CERTPEM", "KEYPEM"),
    keyPair := fun _ _ => Except.ok ⟨7⟩ }

/-- A process state in which certificate material already exists. -/
def wCertSt : CertState :=
  { globalCertificate := some ⟨7⟩, globalPem := "CERTPEM" }

/-- A server that has bound port 3000 and is serving. -/
def wRunning : Server :=
  { Port := 3000, run := true, server := some routes, cert := some ⟨7⟩,
    phase := Phase.serving, startCalls := 1, shutdownCalls := 0 }

/-- A server that was started and then backgrounded (stopped). -/
def wStopped : Server :=
  { Port := 3000, run := false, server := some routes, cert := some ⟨7⟩,
    phase := Phase.idle, startCalls := 1, shutdownCalls := 1 }

/-- A server whose listen loop is about to attempt a bind of port 3000. -/
def wPending : Server :=
  { Port := 3000, run := false, server := some routes, cert := some ⟨7⟩,
    phase := Phase.pendingBind, startCalls := 1, shutdownCalls := 0 }

/-! ## Claim theorems -/

/-- Claim C3: certificate generation is idempotent.  In any process state
where certificate material already exists, `generateTLSCert` regenerates
nothing and leaves the globals unchanged, and two sequential
`PublicTLSCert` calls both return the same (byte-identical) PEM. -/
theorem generateTLSCert_idempotent (env1 env2 : CertEnv) (now1 now2 : Nat)
    (st : CertState) (c : TLSCertificate)
    (h : st.globalCertificate = some c) :
    generateTLSCert env1 now1 st = (Except.ok (), st) ∧
    (PublicTLSCert env1 now1 st).1 = Except.ok st.globalPem ∧
    PublicTLSCert env2 now2 ((PublicTLSCert env1 now1 st).2)
      = (Except.ok st.globalPem, st) := by
  simp [generateTLSCert, PublicTLSCert, h]

/-- Witness for C3. -/
theorem generateTLSCert_idempotent_witness :
    generateTLSCert wCertEnvOk 0 wCertSt = (Except.ok (), wCertSt) ∧
    (PublicTLSCert wCertEnvOk 0 wCertSt).1 = Except.ok "CERTPEM" ∧
    PublicTLSCert wCertEnvOk 0 ((PublicTLSCert wCertEnvOk 0 wCertSt).2)
      = (Except.ok "CERTPEM", wCertSt) :=
  generateTLSCert_idempotent wCertEnvOk wCertEnvOk 0 0 wCertSt ⟨7⟩ rfl

/-- Claim C4: every certificate-generation error is fatal to starting the
server: `NewServer` hands the caller the error instead of a server. -/
theorem NewServer_propagates_cert_error (env : CertEnv) (now : Nat)
    (st : CertState) (e : String)
    (h : (generateTLSCert env now st).1 = Except.error e) :
    (NewServer env now st).1 = Except.error e := by
  unfold NewServer
  rcases hg : generateTLSCert env now st with ⟨r, st1⟩
  rw [hg] at h
  cases r with
  | error e1 => simp_all
  | ok u => simp_all

/-- Witness for C4. -/
theorem NewServer_propagates_cert_error_witness :
    (NewServer wCertEnvBad 0 CertState.initial).1
      = Except.error "entropy exhausted" :=
  NewServer_propagates_cert_error wCertEnvBad 0 CertState.initial
    "entropy exhausted" rfl

/-- Claim C10: `Start()` always returns `nil`, for every server state, so
every error branch guarding its return value is unreachable. -/
theorem Start_returns_nil (s : Server) : (Server.Start s).2 = none := rfl

/-- Claim C9: `ToForeground` on an already-running server and
`ToBackground` on an already-stopped server are exact no-ops: the state
(port, running flag, server handle, call counters) is unchanged and no
`Start`/`Stop` is invoked. -/
theorem foreground_background_noop (s : Server) :
    (s.run = true →
      Server.ToForeground s = s ∧ step s Ev.toForeground = s) ∧
    (s.run = false →
      Server.ToBackground s = s ∧ step s Ev.toBackground = s) := by
  constructor
  · intro h
    have hfg : Server.ToForeground s = s := by
      simp [Server.ToForeground, h]
    exact ⟨hfg, hfg⟩
  · intro h
    have hbg : Server.ToBackground s = s := by
      simp [Server.ToBackground, h]
    exact ⟨hbg, hbg⟩

/-- Witness for C9. -/
theorem foreground_background_noop_witness :
    Server.ToForeground wRunning = wRunning ∧
    Server.ToBackground wStopped = wStopped :=
  ⟨((foreground_background_noop wRunning).1 rfl).1,
   ((foreground_background_noop wStopped).2 rfl).1⟩

/-- `Start` never changes the remembered port. -/
theorem Start_port_eq (t : Server) : ((Server.Start t).1).Port = t.Port := rfl

/-- `Stop` never changes the remembered port. -/
theorem Stop_port_eq (t : Server) : (Server.Stop t).Port = t.Port := by
  unfold Server.Stop
  split <;> rfl

/-- No lifecycle event other than a bind failure changes a non-zero
remembered port. -/
theorem step_port_stable (t : Server) (e : Ev) (h1 : t.Port ≠ 0)
    (h2 : e ≠ Ev.bindFail) : (step t e).Port = t.Port := by
  cases e with
  | start => rfl
  | bindOk e1 =>
    simp only [step]
    split
    · simp [h1]
    · rfl
  | bindFail => exact absurd rfl h2
  | serveClosed =>
    simp only [step]
    split <;> rfl
  | serveFail =>
    simp only [step]
    split <;> rfl
  | stop => exact Stop_port_eq t
  | toForeground =>
    simp only [step, Server.ToForeground]
    split <;> rfl
  | toBackground =>
    simp only [step, Server.ToBackground]
    split
    · exact Stop_port_eq t
    · rfl

/-- Claim C1: once a non-zero port is bound, a background-then-foreground
cycle keeps the remembered `Port` (stop does not change it), the restarted
listen loop asks to bind exactly that port, and a successful rebind leaves
the same port bound.  Moreover `Start` and `Stop` never change `Port`, and
no event other than a bind failure changes a non-zero `Port`. -/
theorem port_preserved_across_restart (s : Server) (eph : Nat)
    (h0 : s.Port ≠ 0) (hrun : s.run = true)
    (hph : s.phase = Phase.serving) (hsrv : s.server.isSome = true) :
    (steps s [Ev.toBackground, Ev.serveClosed, Ev.toForeground]).Port
      = s.Port ∧
    (steps s [Ev.toBackground, Ev.serveClosed, Ev.toForeground]).phase
      = Phase.pendingBind ∧
    (steps s [Ev.toBackground, Ev.serveClosed, Ev.toForeground]).bindAddr
      = "localhost:" ++ toString s.Port ∧
    (steps s [Ev.toBackground, Ev.serveClosed, Ev.toForeground,
              Ev.bindOk eph]).Port = s.Port ∧
    (steps s [Ev.toBackground, Ev.serveClosed, Ev.toForeground,
              Ev.bindOk eph]).run = true ∧
    (∀ t : Server, ((Server.Start t).1).Port = t.Port) ∧
    (∀ t : Server, (Server.Stop t).Port = t.Port) ∧
    (∀ (t : Server) (e : Ev), t.Port ≠ 0 → e ≠ Ev.bindFail →
      (step t e).Port = t.Port) := by
  obtain ⟨l, hl⟩ := Option.isSome_iff_exists.mp hsrv
  refine ⟨?_, ?_, ?_, ?_, ?_, ?_, ?_, ?_⟩
  · simp [steps, step, Server.ToBackground, Server.Stop, Server.ToForeground,
          Server.Start, hrun, hph, hl]
  · simp [steps, step, Server.ToBackground, Server.Stop, Server.ToForeground,
          Server.Start, hrun, hph, hl]
  · simp [steps, step, Server.ToBackground, Server.Stop, Server.ToForeground,
          Server.Start, Server.bindAddr, hrun, hph, hl]
  · simp [steps, step, Server.ToBackground, Server.Stop, Server.ToForeground,
          Server.Start, hrun, hph, hl, h0]
  · simp [steps, step, Server.ToBackground, Server.Stop, Server.ToForeground,
          Server.Start, hrun, hph, hl]
  · exact Start_port_eq
  · exact Stop_port_eq
  · exact step_port_stable

/-- Witness for C1. -/
theorem port_preserved_across_restart_witness :
    (steps wRunning [Ev.toBackground, Ev.serveClosed, Ev.toForeground]).Port
      = 3000 ∧
    (steps wRunning [Ev.toBackground, Ev.serveClosed, Ev.toForeground,
                     Ev.bindOk 40000]).Port = 3000 ∧
    (steps wRunning [Ev.toBackground, Ev.serveClosed, Ev.toForeground,
                     Ev.bindOk 40000]).run = true := by
  have h := port_preserved_across_restart wRunning 40000 (by decide) rfl rfl rfl
  exact ⟨h.1, h.2.2.2.1, h.2.2.2.2.1⟩

/-- Claim C2: when the bind fails, the listen loop resets the remembered
port to 0 and invokes `Start()` again; the next successful bind stores the
port actually resolved from the listener (the OS-chosen ephemeral port). -/
theorem bind_failure_resets_port (s : Server) (eph : Nat)
    (hph : s.phase = Phase.pendingBind) :
    (step s Ev.bindFail).Port = 0 ∧
    (step s Ev.bindFail).startCalls = s.startCalls + 1 ∧
    (step s Ev.bindFail).phase = Phase.pendingBind ∧
    (steps s [Ev.bindFail, Ev.bindOk eph]).Port = eph ∧
    (steps s [Ev.bindFail, Ev.bindOk eph]).run = true := by
  refine ⟨?_, ?_, ?_, ?_, ?_⟩ <;>
    simp [steps, step, Server.Start, hph]

/-- Witness for C2. -/
theorem bind_failure_resets_port_witness :
    (step wPending Ev.bindFail).Port = 0 ∧
    (steps wPending [Ev.bindFail, Ev.bindOk 40000]).Port = 40000 := by
  have h := bind_failure_resets_port wPending 40000 rfl
  exact ⟨h.1, h.2.2.2.1⟩

/-- A request carrying `?messageId=m1`. -/
def wReqMsg : Request :=
  { query := fun k => if k = "messageId" then some ["m1"] else none }

/-- A request carrying `?publicKey=0x04bb`. -/
def wReqKey : Request :=
  { query := fun k => if k = "publicKey" then some ["0x04bb"] else none }

/-- A request with no query parameters at all. -/
def wReqNone : Request :=
  { query := fun _ => none }

/-- A data store holding payload `[0, 1, 2]` for every message id. -/
def wDB : String → Option (List Nat) :=
  fun _ => some [0, 1, 2]

/-- A MIME sniffer that recognises everything as JPEG. -/
def wDetect : List Nat → String × Option String :=
  fun _ => ("image/jpeg", none)

/-- An identicon generator that fails after producing two bytes. -/
def wGenPartial : String → List Nat × Option String :=
  fun _ => ([137, 80], some "could not generate identicon")

/-- Claim C5: every response written by the audio handler carries the fixed
`Content-Type: audio/aac` and `Cache-Control: no-store`, whatever the
payload bytes are (no sniffing), and the body is the raw stored bytes. -/
theorem audio_fixed_content_type (db : String → Option (List Nat))
    (r : Request) (mid : String) (rest : List String) (audio : List Nat)
    (hq : r.query "messageId" = some (mid :: rest))
    (hdb : db mid = some audio) (hne : audio ≠ []) :
    headerGet (audioHandler.ServeHTTP db r emptyRW).headers "Content-Type"
      = some "audio/aac" ∧
    headerGet (audioHandler.ServeHTTP db r emptyRW).headers "Cache-Control"
      = some "no-store" ∧
    (audioHandler.ServeHTTP db r emptyRW).body = [audio] := by
  simp [audioHandler.ServeHTTP, hq, hdb, hne, emptyRW, ResponseWriter.set,
        ResponseWriter.write, headerSet, headerGet]

/-- Witness for C5. -/
theorem audio_fixed_content_type_witness :
    headerGet (audioHandler.ServeHTTP wDB wReqMsg emptyRW).headers
      "Content-Type" = some "audio/aac" ∧
    headerGet (audioHandler.ServeHTTP wDB wReqMsg emptyRW).headers
      "Cache-Control" = some "no-store" ∧
    (audioHandler.ServeHTTP wDB wReqMsg emptyRW).body = [[0, 1, 2]] :=
  audio_fixed_content_type wDB wReqMsg "m1" [] [0, 1, 2]
    (by decide) rfl (by decide)

/-- Claim C6: the image handler writes nothing when the row is missing or
the stored payload is empty; otherwise it writes the sniffed MIME type as
`Content-Type`, sets `Cache-Control: no-store`, and writes the raw stored
bytes as the body. -/
theorem image_lookup_behaviour (detect : List Nat → String × Option String)
    (db : String → Option (List Nat)) (r : Request)
    (mid : String) (rest : List String)
    (hq : r.query "messageId" = some (mid :: rest)) :
    (db mid = none → imageHandler.ServeHTTP detect db r emptyRW = emptyRW) ∧
    (db mid = some [] → imageHandler.ServeHTTP detect db r emptyRW = emptyRW) ∧
    (∀ image : List Nat, db mid = some image → image ≠ [] →
      headerGet (imageHandler.ServeHTTP detect db r emptyRW).headers
        "Content-Type" = some (detect image).1 ∧
      headerGet (imageHandler.ServeHTTP detect db r emptyRW).headers
        "Cache-Control" = some "no-store" ∧
      (imageHandler.ServeHTTP detect db r emptyRW).body = [image]) := by
  refine ⟨?_, ?_, ?_⟩
  · intro h
    simp [imageHandler.ServeHTTP, hq, h]
  · intro h
    simp [imageHandler.ServeHTTP, hq, h]
  · intro image hdb hne
    simp [imageHandler.ServeHTTP, hq, hdb, hne, emptyRW, ResponseWriter.set,
          ResponseWriter.write, headerSet, headerGet]

/-- Witness for C6. -/
theorem image_lookup_behaviour_witness :
    headerGet (imageHandler.ServeHTTP wDetect wDB wReqMsg emptyRW).headers
      "Content-Type" = some "image/jpeg" ∧
    headerGet (imageHandler.ServeHTTP wDetect wDB wReqMsg emptyRW).headers
      "Cache-Control" = some "no-store" ∧
    (imageHandler.ServeHTTP wDetect wDB wReqMsg emptyRW).body = [[0, 1, 2]] :=
  (image_lookup_behaviour wDetect wDB wReqMsg "m1" [] (by decide)).2.2
    [0, 1, 2] rfl (by decide)

/-- Claim C7: identicon generation failure is non-fatal to the response
headers: the handler still sets `Content-Type: image/png`, the far-future
`Cache-Control`, and an `Expires` dated 60 years out, and the body bytes
are exactly whatever bytes generation produced (so nothing when generation
produced none). -/
theorem identicon_failure_nonfatal
    (generate : String → List Nat × Option String) (now : Time)
    (r : Request) (pk : String) (rest : List String)
    (image : List Nat) (e : String)
    (hq : r.query "publicKey" = some (pk :: rest))
    (hg : generate pk = (image, some e)) :
    headerGet (identiconHandler.ServeHTTP generate now r emptyRW).headers
      "Content-Type" = some "image/png" ∧
    headerGet (identiconHandler.ServeHTTP generate now r emptyRW).headers
      "Cache-Control" = some "max-age:290304000, public" ∧
    headerGet (identiconHandler.ServeHTTP generate now r emptyRW).headers
      "Expires" = some ((now.AddDate 60).httpFormat) ∧
    (now.AddDate 60).year = now.year + 60 ∧
    (identiconHandler.ServeHTTP generate now r emptyRW).body = [image] ∧
    (identiconHandler.ServeHTTP generate now r emptyRW).body.flatten = image := by
  simp [identiconHandler.ServeHTTP, hq, hg, emptyRW, ResponseWriter.set,
        ResponseWriter.write, headerSet, headerGet, Time.AddDate]

/-- Witness for C7. -/
theorem identicon_failure_nonfatal_witness :
    headerGet (identiconHandler.ServeHTTP wGenPartial ⟨2024⟩ wReqKey
        emptyRW).headers "Content-Type" = some "image/png" ∧
    headerGet (identiconHandler.ServeHTTP wGenPartial ⟨2024⟩ wReqKey
        emptyRW).headers "Expires" = some "2084 GMT" ∧
    (identiconHandler.ServeHTTP wGenPartial ⟨2024⟩ wReqKey emptyRW).body
      = [[137, 80]] := by
  have h := identicon_failure_nonfatal wGenPartial ⟨2024⟩ wReqKey "0x04bb" []
    [137, 80] "could not generate identicon" (by decide) rfl
  exact ⟨h.1, h.2.2.1, h.2.2.2.2.1⟩

/-- Claim C8: each of the three handlers, given a request whose required
query parameter is absent or has no values, produces no headers and no
body (the writer is exactly the untouched empty writer), and being a total
function it returns without panicking. -/
theorem missing_param_no_output (detect : List Nat → String × Option String)
    (db : String → Option (List Nat))
    (generate : String → List Nat × Option String) (now : Time)
    (r : Request)
    (hm : r.query "messageId" = none ∨ r.query "messageId" = some [])
    (hp : r.query "publicKey" = none ∨ r.query "publicKey" = some []) :
    imageHandler.ServeHTTP detect db r emptyRW = emptyRW ∧
    audioHandler.ServeHTTP db r emptyRW = emptyRW ∧
    identiconHandler.ServeHTTP generate now r emptyRW = emptyRW := by
  refine ⟨?_, ?_, ?_⟩
  · rcases hm with h | h <;> simp [imageHandler.ServeHTTP, h]
  · rcases hm with h | h <;> simp [audioHandler.ServeHTTP, h]
  · rcases hp with h | h <;> simp [identiconHandler.ServeHTTP, h]

/-- Witness for C8. -/
theorem missing_param_no_output_witness :
    imageHandler.ServeHTTP wDetect wDB wReqNone emptyRW = emptyRW ∧
    audioHandler.ServeHTTP wDB wReqNone emptyRW = emptyRW ∧
    identiconHandler.ServeHTTP wGenPartial ⟨2024⟩ wReqNone emptyRW
      = emptyRW :=
  missing_param_no_output wDetect wDB wGenPartial ⟨2024⟩ wReqNone
    (Or.inl rfl) (Or.inl rfl)

end StatusServer
